import Mathlib

/-!
Verification of the protocol layer of the gemini-cli repository.

The development shallowly embeds the TypeScript protocol-layer sources:
  - packages/core-protocol/src/types.ts      (message model)
  - packages/core-protocol/src/messages.ts   (factories and validateProtocolMessage)
  - packages/core-protocol/src/client.ts     (ProtocolClient)
  - packages/core-protocol loopback binding  (LoopbackProtocolClient)
  - packages/core-server/src/toolProxy.ts    (ToolProxy)
  - packages/core-server/src/server.ts       (CoreServer)

Dynamic JavaScript values are modelled by the inductive `Js.Value`; the
`Map` objects used for pending requests and discovered tool sets are
modelled by association lists over `String` keys.  Asynchronous
resolve/reject of a promise is modelled by explicit settlement events
returned from each state-transition function, and JavaScript timers are
modelled as explicit fire events that are enabled only while the timer has
not been cleared.
-/

namespace Js

/-- A dynamic JavaScript value: the payloads carried by protocol messages.
Numbers are modelled as integers (the protocol only uses timestamps and
opaque payloads, never fractional arithmetic). -/
inductive Value where
  | undef
  | nul
  | bool (b : Bool)
  | num (n : Int)
  | str (s : String)
  | arr (elems : List Value)
  | obj (fields : List (String × Value))
deriving Repr, BEq, Inhabited

/-- JavaScript `typeof` on the modelled values (`typeof null` is "object"). -/
def Value.typeof : Value → String
  | .undef => "undefined"
  | .nul => "object"
  | .bool _ => "boolean"
  | .num _ => "number"
  | .str _ => "string"
  | .arr _ => "object"
  | .obj _ => "object"

/-- JavaScript truthiness: `undefined`, `null`, `false`, `0` and the empty
string are falsy; every object and array is truthy. -/
def Value.truthy : Value → Bool
  | .undef => false
  | .nul => false
  | .bool b => b
  | .num n => n != 0
  | .str s => s != ""
  | .arr _ => true
  | .obj _ => true

/-- Property lookup `v[k]`: `undefined` on a missing key and on any
non-object receiver (matching the optional-chaining reads in the source). -/
def Value.getField : Value → String → Value
  | .obj fields, k =>
      match fields.find? (fun f => f.fst == k) with
      | some f => f.snd
      | none => .undef
  | _, _ => .undef

end Js

namespace AssocMap

/-- Lookup in an association list, modelling `Map.get`. -/
def getKey? {β : Type} : List (String × β) → String → Option β
  | [], _ => none
  | (k', v') :: rest, k => if k' = k then some v' else getKey? rest k

/-- Insert-or-replace in an association list, modelling `Map.set`. -/
def setKey {β : Type} : List (String × β) → String → β → List (String × β)
  | [], k, v => [(k, v)]
  | (k', v') :: rest, k, v =>
      if k' = k then (k, v) :: rest else (k', v') :: setKey rest k v

/-- Removal from an association list, modelling `Map.delete`. -/
def delKey {β : Type} : List (String × β) → String → List (String × β)
  | [], _ => []
  | (k', v') :: rest, k =>
      if k' = k then delKey rest k else (k', v') :: delKey rest k

end AssocMap

namespace Protocol

/-- `validateProtocolMessage` from packages/core-protocol/src/messages.ts:
`message && typeof message.id === 'string' && typeof message.type ===
'string' && typeof message.timestamp === 'number'`, coerced to a boolean. -/
def validateProtocolMessage (message : Js.Value) : Bool :=
  message.truthy
    && (message.getField "id").typeof == "string"
    && (message.getField "type").typeof == "string"
    && (message.getField "timestamp").typeof == "number"

/-- `ToolDefinition` from packages/core-protocol/src/types.ts.  The
JSON-Schema `parameters` object is opaque to every operation verified here,
so it is carried as a dynamic value. -/
structure ToolDefinition where
  name : String
  description : String
  parameters : Js.Value
deriving Repr, BEq, Inhabited

/-- `GenerateContentRequest` (types.ts): `contents` and `config` are opaque
payloads; `config` is optional. -/
structure GenerateContentRequest where
  id : String
  timestamp : Int
  contents : Js.Value
  config : Option Js.Value
deriving Repr, BEq, Inhabited

/-- `GenerateContentResponse` (types.ts): `response` is a required opaque
payload, `error` an optional string. -/
structure GenerateContentResponse where
  id : String
  timestamp : Int
  requestId : String
  response : Js.Value
  error : Option String
deriving Repr, BEq, Inhabited

/-- `ToolExecutionRequest` (types.ts). -/
structure ToolExecutionRequest where
  id : String
  timestamp : Int
  tool : String
  parameters : Js.Value
deriving Repr, BEq, Inhabited

/-- `ToolExecutionResponse` (types.ts): both `result` and `error` are
optional; an absent `result` is the JavaScript value `undefined`. -/
structure ToolExecutionResponse where
  id : String
  timestamp : Int
  requestId : String
  result : Js.Value
  error : Option String
deriving Repr, BEq, Inhabited

/-- `StreamingResponse` (types.ts). -/
structure StreamingResponse where
  id : String
  timestamp : Int
  requestId : String
  chunk : Js.Value
  isComplete : Bool
deriving Repr, BEq, Inhabited

/-- `ToolDiscoveryMessage` (types.ts). -/
structure ToolDiscoveryMessage where
  id : String
  timestamp : Int
  tools : List ToolDefinition
deriving Repr, BEq, Inhabited

/-- The union `ProtocolMessageType` (types.ts): one constructor per `type`
discriminator value. -/
inductive ProtocolMessage where
  | generateContentRequest (m : GenerateContentRequest)
  | generateContentResponse (m : GenerateContentResponse)
  | toolExecutionRequest (m : ToolExecutionRequest)
  | toolExecutionResponse (m : ToolExecutionResponse)
  | streamingResponse (m : StreamingResponse)
  | toolDiscovery (m : ToolDiscoveryMessage)
deriving Repr, BEq, Inhabited

/-- Truthiness of the optional `error` field of a response: the source
branches on `if (response.error)`, which is false both when the field is
absent and when it is the empty string. -/
def errorTruthy : Option String → Bool
  | none => false
  | some e => e != ""

/-- `createToolExecutionRequest` (messages.ts).  `generateId()` draws from
`Math.random`, so the fresh id and the `Date.now()` timestamp are passed in
as parameters of the embedding. -/
def createToolExecutionRequest (freshId : String) (now : Int)
    (tool : String) (parameters : Js.Value) : ToolExecutionRequest :=
  { id := freshId, timestamp := now, tool := tool, parameters := parameters }

/-- `createToolExecutionResponse` (messages.ts): fills `requestId`,
`result` and `error` from the caller's arguments exactly as given. -/
def createToolExecutionResponse (freshId : String) (now : Int)
    (requestId : String) (result : Js.Value) (error : Option String) :
    ToolExecutionResponse :=
  { id := freshId, timestamp := now, requestId := requestId,
    result := result, error := error }

/-- `createGenerateContentRequest` (messages.ts). -/
def createGenerateContentRequest (freshId : String) (now : Int)
    (contents : Js.Value) (config : Option Js.Value) : GenerateContentRequest :=
  { id := freshId, timestamp := now, contents := contents, config := config }

end Protocol

namespace ToolProxy

open Protocol AssocMap

/-- One entry of `ToolProxy.pendingRequests` (toolProxy.ts): the map value
holds resolve/reject callbacks and the timeout handle; the callbacks close
over the `toolName` of the `executeTool` call, which is the only data the
settlement events below need. -/
structure PendingEntry where
  toolName : String
deriving Repr, BEq, Inhabited

/-- State of a `ToolProxy` instance (toolProxy.ts).  `pendingRequests` and
`clientTools` embed the two `Map` fields.  `activeTimers` models the
not-yet-cleared `setTimeout` handles: `executeTool` arms a timer whose
callback closes over the tool name, `clearTimeout` removes it, and a timer
that has been cleared or has already fired can never fire. -/
structure State where
  pendingRequests : List (String × PendingEntry)
  activeTimers : List (String × String)
  clientTools : List (String × List ToolDefinition)
  timeoutMs : Int
deriving Repr, BEq, Inhabited

/-- Default of the `timeoutMs` constructor parameter (toolProxy.ts line 27). -/
def defaultTimeoutMs : Int := 30000

/-- Settlement of the promise returned by `executeTool`: `resolved` embeds
`pending.resolve(...)`, `rejected` embeds `pending.reject(new Error(...))`
with the error's message string. -/
inductive Settlement where
  | resolved (requestId : String) (result : Js.Value)
  | rejected (requestId : String) (message : String)
deriving Repr, BEq, Inhabited

/-- `ToolProxy.executeTool` (toolProxy.ts lines 30-62): builds the request
with a fresh id, arms the timeout, registers the pending entry, and sends
the request to the client via `server.sendMessage`.  The returned pair is
the new proxy state and the message handed to `sendMessage` for `clientId`.
The fresh id and the `Date.now()` timestamp are parameters of the
embedding. -/
def executeTool (st : State) (clientId toolName : String)
    (parameters : Js.Value) (freshId : String) (now : Int) :
    State × String × ToolExecutionRequest :=
  let request : ToolExecutionRequest :=
    { id := freshId, timestamp := now, tool := toolName, parameters := parameters }
  ({ st with
      activeTimers := setKey st.activeTimers freshId toolName,
      pendingRequests := setKey st.pendingRequests freshId { toolName := toolName } },
   clientId, request)

/-- `ToolProxy.handleToolResponse` (toolProxy.ts lines 64-83): unknown
`requestId` logs a warning and returns with no effect; otherwise the
timeout is cleared, the entry removed, and the promise rejected when
`response.error` is truthy, resolved with `response.result` otherwise. -/
def handleToolResponse (st : State) (response : ToolExecutionResponse) :
    State × Option Settlement :=
  match getKey? st.pendingRequests response.requestId with
  | none => (st, none)
  | some _ =>
      let cleaned : State :=
        { st with
            activeTimers := delKey st.activeTimers response.requestId,
            pendingRequests := delKey st.pendingRequests response.requestId }
      if errorTruthy response.error then
        (cleaned, some (.rejected response.requestId (response.error.getD "")))
      else
        (cleaned, some (.resolved response.requestId response.result))

/-- Expiry of the timer armed by `executeTool` (toolProxy.ts lines 47-50):
enabled only while the timer is active (a handle passed to `clearTimeout`
never fires); the callback deletes the pending entry and rejects with
`Tool execution timeout: <toolName>` using the tool name it closed over.
The spent one-shot timer leaves the active set. -/
def fireTimeout (st : State) (requestId : String) : State × Option Settlement :=
  match getKey? st.activeTimers requestId with
  | none => (st, none)
  | some toolName =>
      ({ st with
          activeTimers := delKey st.activeTimers requestId,
          pendingRequests := delKey st.pendingRequests requestId },
       some (.rejected requestId ("Tool execution timeout: " ++ toolName)))

/-- `ToolProxy.handleToolDiscovery` (toolProxy.ts lines 85-93):
`this.clientTools.set(clientId, discovery.tools)`. -/
def handleToolDiscovery (st : State) (clientId : String)
    (discovery : ToolDiscoveryMessage) : State :=
  { st with clientTools := setKey st.clientTools clientId discovery.tools }

/-- `ToolProxy.getClientTools` (toolProxy.ts lines 95-97):
`this.clientTools.get(clientId) || []`. -/
def getClientTools (st : State) (clientId : String) : List ToolDefinition :=
  (getKey? st.clientTools clientId).getD []

/-- `ToolProxy.hasClientTool` (toolProxy.ts lines 99-102). -/
def hasClientTool (st : State) (clientId toolName : String) : Bool :=
  (getClientTools st clientId).any (fun tool => tool.name == toolName)

/-- `ToolProxy.getClientToolDefinition` (toolProxy.ts lines 104-107). -/
def getClientToolDefinition (st : State) (clientId toolName : String) :
    Option ToolDefinition :=
  (getClientTools st clientId).find? (fun tool => tool.name == toolName)

end ToolProxy

namespace ProtocolClient

open Protocol AssocMap

/-- The capability used to answer an inbound `ToolExecutionRequest`: both
`LocalToolExecutor.execute` and the legacy `toolRequestHandler` callback
return a promise of a response; `Except.error e` models a rejected promise
or thrown exception whose message is `e` (the `catch` block in
`handleToolRequest` turns it into an error response). -/
def Executor := ToolExecutionRequest → Except String ToolExecutionResponse

/-- State of a `ProtocolClient` (packages/core-protocol/src/client.ts):
the `pendingRequests` map (whose values are the resolver closures built by
`generateContent`, all running the same code, so carried as `Unit`), the
optional `toolExecutor` set by `setupToolExecution`, and the optional
legacy `toolRequestHandler` set by `onToolRequest`. -/
structure State where
  pendingRequests : List (String × Unit)
  toolExecutor : Option Executor
  toolRequestHandler : Option Executor

/-- Settlement of the promise returned by `generateContent`: `resolved`
embeds `resolve(response)`, `rejectedErr` embeds `reject(new Error(m))`
carrying the value `m` the `Error` was built from. -/
inductive GenSettlement where
  | resolved (value : Js.Value)
  | rejectedErr (message : Js.Value)
deriving Repr, BEq, Inhabited

/-- The resolver closure registered by `generateContent` (client.ts lines
67-74): `if (response?.error) reject(new Error(response.error)) else
resolve(response)` applied to the value the closure is called with. -/
def generateContentResolver (payload : Js.Value) : GenSettlement :=
  if (payload.getField "error").truthy then
    .rejectedErr (payload.getField "error")
  else
    .resolved payload

/-- `ProtocolClient.handleToolRequest` (client.ts lines 119-152): the
registered executor takes priority, the legacy handler is the fallback,
and with neither configured an error response `No tool executor
configured` is built; a rejection from either capability is caught and
turned into an error response.  Exactly the returned message is passed to
`sendMessage`. -/
def handleToolRequest (st : State) (freshId : String) (now : Int)
    (request : ToolExecutionRequest) : ToolExecutionResponse :=
  let attempt : Except String ToolExecutionResponse :=
    match st.toolExecutor with
    | some executor => executor request
    | none =>
        match st.toolRequestHandler with
        | some handler => handler request
        | none =>
            Except.ok
              { id := freshId, timestamp := now, requestId := request.id,
                result := .undef, error := some "No tool executor configured" }
  match attempt with
  | .ok response => response
  | .error e =>
      { id := freshId, timestamp := now, requestId := request.id,
        result := .undef, error := some e }

/-- Observable effect of one `handleMessage` call: a tool response sent
back, a settlement of the pending request with the given id, or nothing. -/
inductive Effect where
  | toolResponse (response : ToolExecutionResponse)
  | settled (requestId : String) (s : GenSettlement)
  | noEffect
deriving Inhabited

/-- `ProtocolClient.handleMessage` (client.ts lines 38-60): a
`tool_execution_request` is dispatched to `handleToolRequest`; a
`generate_content_response` with a registered pending resolver invokes the
resolver with `{error: response.error}` when the envelope `error` is
truthy and with `response.response` otherwise, then deletes the entry;
everything else (including an unmatched `requestId`) has no effect. -/
def handleMessage (st : State) (freshId : String) (now : Int)
    (message : ProtocolMessage) : State × Effect :=
  match message with
  | .toolExecutionRequest request =>
      (st, .toolResponse (handleToolRequest st freshId now request))
  | .generateContentResponse response =>
      match getKey? st.pendingRequests response.requestId with
      | none => (st, .noEffect)
      | some _ =>
          let arg : Js.Value :=
            if errorTruthy response.error then
              .obj [("error", .str (response.error.getD ""))]
            else
              response.response
          ({ st with
              pendingRequests := delKey st.pendingRequests response.requestId },
           .settled response.requestId (generateContentResolver arg))
  | _ => (st, .noEffect)

/-- `ProtocolClient.generateContent` (client.ts lines 62-86): builds the
request via `createGenerateContentRequest`, registers the resolver under
the message id, and sends the request.  The fresh id and timestamp are
parameters of the embedding. -/
def generateContent (st : State) (contents : Js.Value)
    (config : Option Js.Value) (freshId : String) (now : Int) :
    State × GenerateContentRequest :=
  ({ st with pendingRequests := setKey st.pendingRequests freshId () },
   createGenerateContentRequest freshId now contents config)

/-- Expiry of the 30-second timer armed by `generateContent` (client.ts
lines 79-84).  This timer is never cleared, so its callback re-checks
membership: only when the id is still pending does it delete the entry and
reject with `Request timeout`. -/
def fireGenTimeout (st : State) (requestId : String) :
    State × Option (String × GenSettlement) :=
  if (getKey? st.pendingRequests requestId).isSome then
    ({ st with pendingRequests := delKey st.pendingRequests requestId },
     some (requestId, .rejectedErr (.str "Request timeout")))
  else
    (st, none)

end ProtocolClient

namespace CoreServer

open Protocol

/-- State of `CoreServer` (packages/core-server/src/server.ts) relevant to
message delivery: the `Set` of registered message handlers, carried as a
list of opaque handler identifiers. -/
structure State where
  messageHandlers : List Nat
deriving Repr, BEq, Inhabited

/-- One invocation `handler(message, clientId)` performed by
`sendMessage`. -/
structure Delivery where
  handler : Nat
  message : ProtocolMessage
  clientId : String
deriving Repr, BEq, Inhabited

/-- The error taxonomy a failed `sendMessage` could surface with; the spec
names `UnknownClient` for a clientId with no active connection. -/
inductive ServerError where
  | unknownClient (clientId : String)
deriving Repr, BEq, Inhabited

/-- `CoreServer.sendMessage` (server.ts lines 66-69): the body is exactly
`this.messageHandlers.forEach(handler => handler(message, clientId))`; it
consults no client registry and has no failure path, so the embedding
always returns `ok` with one delivery per registered handler. -/
def sendMessage (st : State) (clientId : String) (message : ProtocolMessage) :
    Except ServerError (List Delivery) :=
  Except.ok
    (st.messageHandlers.map
      (fun h => { handler := h, message := message, clientId := clientId }))

/-- `CoreServer.handleGenerateContent` (server.ts lines 98-140), with the
excluded Gemini engine call abstracted as its `outcome`: `ok response`
embeds a successful `geminiClient.generateContent`, `error e` a thrown
error with message `e`.  The success message carries the engine payload
and no `error`; the catch branch carries `response: null` and the error
message. -/
def handleGenerateContent (request : GenerateContentRequest) (now : Int)
    (outcome : Except String Js.Value) : GenerateContentResponse :=
  match outcome with
  | .ok response =>
      { id := "response-" ++ toString now, timestamp := now,
        requestId := request.id, response := response, error := none }
  | .error e =>
      { id := "error-" ++ toString now, timestamp := now,
        requestId := request.id, response := .nul, error := some e }

end CoreServer

namespace LoopbackProtocolClient

open Protocol AssocMap

/-- State of a `LoopbackProtocolClient` (loopback binding of the protocol
package): its own `messageHandlers` set plus the `pendingRequests` map it
inherits from `ProtocolClient`. -/
structure State where
  messageHandlers : List Nat
  pendingRequests : List (String × Unit)
deriving Repr, BEq, Inhabited

/-- `LoopbackProtocolClient.disconnect`: the entire body is
`this.messageHandlers.clear()`.  The second component lists the
rejections the call performs on pending requests — the body performs
none. -/
def disconnect (st : State) : State × List ProtocolClient.GenSettlement :=
  ({ st with messageHandlers := [] }, [])

end LoopbackProtocolClient

namespace AssocMap

theorem getKey?_setKey_self {β : Type} (l : List (String × β)) (k : String) (v : β) :
    getKey? (setKey l k v) k = some v := by
  induction l with
  | nil => simp [setKey, getKey?]
  | cons hd tl ih =>
      by_cases h : hd.fst = k
      · simp [setKey, h, getKey?]
      · simp [setKey, h, getKey?, ih]

theorem getKey?_setKey_ne {β : Type} (l : List (String × β)) (k k' : String) (v : β)
    (h : k' ≠ k) : getKey? (setKey l k v) k' = getKey? l k' := by
  have hkk : ¬ (k = k') := fun hh => h hh.symm
  induction l with
  | nil => simp [setKey, getKey?, hkk]
  | cons hd tl ih =>
      by_cases hk : hd.fst = k
      · have hne : ¬ (hd.fst = k') := by rw [hk]; exact hkk
        simp [setKey, hk, getKey?, hkk, hne]
      · simp [setKey, hk, getKey?, ih]

theorem getKey?_delKey_self {β : Type} (l : List (String × β)) (k : String) :
    getKey? (delKey l k) k = none := by
  induction l with
  | nil => simp [delKey, getKey?]
  | cons hd tl ih =>
      by_cases h : hd.fst = k
      · simp [delKey, h, ih]
      · simp [delKey, h, getKey?, ih]

theorem getKey?_delKey_ne {β : Type} (l : List (String × β)) (k k' : String)
    (h : k' ≠ k) : getKey? (delKey l k) k' = getKey? l k' := by
  have hkk : ¬ (k = k') := fun hh => h hh.symm
  induction l with
  | nil => simp [delKey]
  | cons hd tl ih =>
      by_cases hk : hd.fst = k
      · have hne : ¬ (hd.fst = k') := by
          rw [hk]
          exact hkk
        simp [delKey, hk, getKey?, hne, hkk, ih]
      · simp [delKey, hk, getKey?, ih]

end AssocMap

namespace Js

theorem Value.typeof_eq_string_iff (v : Value) :
    v.typeof = "string" ↔ ∃ s, v = .str s := by
  cases v <;> simp [Value.typeof]

theorem Value.typeof_eq_number_iff (v : Value) :
    v.typeof = "number" ↔ ∃ n, v = .num n := by
  cases v <;> simp [Value.typeof]

end Js

/-- C3, counterexample: `validateProtocolMessage` returns `true` on an
object whose `id` is the empty string (the source checks only
`typeof message.id === 'string'`), while the claim demands `false` for an
empty-string `id`. -/
theorem C3_counterexample_empty_id_accepted :
    Protocol.validateProtocolMessage
        (Js.Value.obj [("id", .str ""), ("type", .str "generate_content_request"),
                       ("timestamp", .num 1700000000000)]) = true ∧
    (Js.Value.obj [("id", .str ""), ("type", .str "generate_content_request"),
                   ("timestamp", .num 1700000000000)]).getField "id" = .str "" :=
  ⟨by rfl, by rfl⟩

/-- C3 (amended): for every input object, `validateProtocolMessage`
returns true iff its `id` is a string, its `type` is a string, and its
`timestamp` is a number; the strings may be empty, and any object missing
`id`, `type`, or `timestamp` yields false (a missing field reads as
`undefined`, whose `typeof` is not the required tag). -/
theorem C3_validateProtocolMessage_structural (fields : List (String × Js.Value)) :
    Protocol.validateProtocolMessage (Js.Value.obj fields) = true ↔
      ((∃ s, (Js.Value.obj fields).getField "id" = .str s) ∧
       (∃ s, (Js.Value.obj fields).getField "type" = .str s) ∧
       (∃ n, (Js.Value.obj fields).getField "timestamp" = .num n)) := by
  simp [Protocol.validateProtocolMessage, Js.Value.truthy,
        ← Js.Value.typeof_eq_string_iff, ← Js.Value.typeof_eq_number_iff,
        and_assoc]

/-- C1, counterexample: a matching response that carries the error string
`""` does not reject the call with that string — the source branches on
the truthiness of `response.error`, the empty string is falsy, and the
call resolves with the response's `result` instead. -/
theorem C1_counterexample_empty_error_resolves :
    (ToolProxy.handleToolResponse
        { pendingRequests := [("rq", { toolName := "read_file" })],
          activeTimers := [("rq", "read_file")],
          clientTools := [], timeoutMs := 30000 }
        { id := "resp", timestamp := 0, requestId := "rq",
          result := .str "ok", error := some "" }).2 =
      some (ToolProxy.Settlement.resolved "rq" (.str "ok")) := by
  rfl

/-- C1 (amended): for every `executeTool` call whose pending entry is
still registered, when `handleToolResponse` receives a response with a
matching `requestId`: if the response carries a non-empty error string the
call rejects with that string verbatim; if the error field is absent or is
the empty string the call resolves with exactly the response's `result`;
in both cases the pending entry is removed and its timeout cleared. -/
theorem C1_handleToolResponse_settles (st : ToolProxy.State)
    (response : Protocol.ToolExecutionResponse) (entry : ToolProxy.PendingEntry)
    (hp : AssocMap.getKey? st.pendingRequests response.requestId = some entry) :
    (∀ e, response.error = some e → e ≠ "" →
        (ToolProxy.handleToolResponse st response).2 =
          some (ToolProxy.Settlement.rejected response.requestId e)) ∧
    ((response.error = none ∨ response.error = some "") →
        (ToolProxy.handleToolResponse st response).2 =
          some (ToolProxy.Settlement.resolved response.requestId response.result)) ∧
    AssocMap.getKey?
        (ToolProxy.handleToolResponse st response).1.pendingRequests
        response.requestId = none ∧
    AssocMap.getKey?
        (ToolProxy.handleToolResponse st response).1.activeTimers
        response.requestId = none := by
  refine ⟨?_, ?_, ?_, ?_⟩
  · intro e he hne
    simp [ToolProxy.handleToolResponse, hp, he, Protocol.errorTruthy, hne]
  · rintro (h | h) <;>
      simp [ToolProxy.handleToolResponse, hp, h, Protocol.errorTruthy]
  · by_cases hc : Protocol.errorTruthy response.error <;>
      simp [ToolProxy.handleToolResponse, hp, hc, AssocMap.getKey?_delKey_self]
  · by_cases hc : Protocol.errorTruthy response.error <;>
      simp [ToolProxy.handleToolResponse, hp, hc, AssocMap.getKey?_delKey_self]

/-- C1, witness: the amended theorem applied to a concrete pending entry
and a concrete successful response. -/
theorem C1_handleToolResponse_settles_witness :
    (ToolProxy.handleToolResponse
        { pendingRequests := [("rq", { toolName := "read_file" })],
          activeTimers := [("rq", "read_file")],
          clientTools := [], timeoutMs := 30000 }
        { id := "resp", timestamp := 0, requestId := "rq",
          result := .str "content", error := none }).2 =
      some (ToolProxy.Settlement.resolved "rq" (.str "content")) :=
  (C1_handleToolResponse_settles
      { pendingRequests := [("rq", { toolName := "read_file" })],
        activeTimers := [("rq", "read_file")],
        clientTools := [], timeoutMs := 30000 }
      { id := "resp", timestamp := 0, requestId := "rq",
        result := .str "content", error := none }
      { toolName := "read_file" } (by rfl)).2.1 (Or.inl rfl)

/-- C2: an `executeTool` call whose timer expires before a matching
response rejects with `Tool execution timeout: <tool>` and its pending
entry is removed; the proxy's default timeout is 30000 ms; and a
`handleToolResponse` for any `requestId` with no pending entry (a late
response after the timeout, or an id that was never registered) returns
without effect: the state — hence every other pending entry — is
unchanged and nothing is settled. -/
theorem C2_executeTool_timeout (st : ToolProxy.State)
    (clientId toolName : String) (parameters : Js.Value)
    (freshId : String) (now : Int) :
    ToolProxy.defaultTimeoutMs = 30000 ∧
    (ToolProxy.fireTimeout
        (ToolProxy.executeTool st clientId toolName parameters freshId now).1
        freshId).2 =
      some (ToolProxy.Settlement.rejected freshId
        ("Tool execution timeout: " ++ toolName)) ∧
    AssocMap.getKey?
        (ToolProxy.fireTimeout
            (ToolProxy.executeTool st clientId toolName parameters freshId now).1
            freshId).1.pendingRequests freshId = none ∧
    (∀ (st' : ToolProxy.State) (response : Protocol.ToolExecutionResponse),
        AssocMap.getKey? st'.pendingRequests response.requestId = none →
        ToolProxy.handleToolResponse st' response = (st', none)) := by
  refine ⟨rfl, ?_, ?_, ?_⟩
  · simp [ToolProxy.executeTool, ToolProxy.fireTimeout, AssocMap.getKey?_setKey_self]
  · simp [ToolProxy.executeTool, ToolProxy.fireTimeout, AssocMap.getKey?_setKey_self,
          AssocMap.getKey?_delKey_self]
  · intro st' response h
    simp [ToolProxy.handleToolResponse, h]

/-- C2, witness: the theorem applied at concrete inputs, with the
unknown-id hypothesis discharged on the empty pending map. -/
theorem C2_executeTool_timeout_witness :
    (ToolProxy.fireTimeout
        (ToolProxy.executeTool
            { pendingRequests := [], activeTimers := [],
              clientTools := [], timeoutMs := 50 }
            "loopback" "read_file" (.obj []) "fresh1" 0).1
        "fresh1").2 =
      some (ToolProxy.Settlement.rejected "fresh1"
        ("Tool execution timeout: " ++ "read_file")) ∧
    ToolProxy.handleToolResponse
        { pendingRequests := [], activeTimers := [],
          clientTools := [], timeoutMs := 50 }
        { id := "x", timestamp := 0, requestId := "never",
          result := .undef, error := none } =
      ({ pendingRequests := [], activeTimers := [],
         clientTools := [], timeoutMs := 50 }, none) :=
  ⟨(C2_executeTool_timeout
      { pendingRequests := [], activeTimers := [], clientTools := [], timeoutMs := 50 }
      "loopback" "read_file" (.obj []) "fresh1" 0).2.1,
   (C2_executeTool_timeout
      { pendingRequests := [], activeTimers := [], clientTools := [], timeoutMs := 50 }
      "loopback" "read_file" (.obj []) "fresh1" 0).2.2.2
      { pendingRequests := [], activeTimers := [], clientTools := [], timeoutMs := 50 }
      { id := "x", timestamp := 0, requestId := "never",
        result := .undef, error := none } (by rfl)⟩

/-- C5: a later `handleToolDiscovery` for the same clientId replaces the
stored tool set wholesale: after announcing `[A, B]` and then `[A]`,
`getClientTools` returns `[A]` and `hasClientTool` no longer reports
`B`. -/
theorem C5_discovery_replaces_wholesale (st : ToolProxy.State)
    (clientId : String) (A B : Protocol.ToolDefinition)
    (m1 m2 : Protocol.ToolDiscoveryMessage)
    (h1 : m1.tools = [A, B]) (h2 : m2.tools = [A]) (hAB : A.name ≠ B.name) :
    ToolProxy.getClientTools
        (ToolProxy.handleToolDiscovery
            (ToolProxy.handleToolDiscovery st clientId m1) clientId m2)
        clientId = [A] ∧
    ToolProxy.hasClientTool
        (ToolProxy.handleToolDiscovery
            (ToolProxy.handleToolDiscovery st clientId m1) clientId m2)
        clientId B.name = false := by
  have hget : ToolProxy.getClientTools
      (ToolProxy.handleToolDiscovery
          (ToolProxy.handleToolDiscovery st clientId m1) clientId m2)
      clientId = [A] := by
    simp [ToolProxy.handleToolDiscovery, ToolProxy.getClientTools,
          AssocMap.getKey?_setKey_self, h2]
  refine ⟨hget, ?_⟩
  simp [ToolProxy.hasClientTool, hget, hAB]

/-- C5, witness: the theorem applied to two concrete discovery messages. -/
theorem C5_discovery_replaces_wholesale_witness :
    ToolProxy.getClientTools
        (ToolProxy.handleToolDiscovery
            (ToolProxy.handleToolDiscovery
                { pendingRequests := [], activeTimers := [],
                  clientTools := [], timeoutMs := 30000 }
                "loopback"
                { id := "d1", timestamp := 0,
                  tools := [{ name := "read_file", description := "Read a file",
                              parameters := .obj [] },
                            { name := "write_file", description := "Write a file",
                              parameters := .obj [] }] })
            "loopback"
            { id := "d2", timestamp := 1,
              tools := [{ name := "read_file", description := "Read a file",
                          parameters := .obj [] }] })
        "loopback" =
      [{ name := "read_file", description := "Read a file", parameters := .obj [] }] ∧
    ToolProxy.hasClientTool
        (ToolProxy.handleToolDiscovery
            (ToolProxy.handleToolDiscovery
                { pendingRequests := [], activeTimers := [],
                  clientTools := [], timeoutMs := 30000 }
                "loopback"
                { id := "d1", timestamp := 0,
                  tools := [{ name := "read_file", description := "Read a file",
                              parameters := .obj [] },
                            { name := "write_file", description := "Write a file",
                              parameters := .obj [] }] })
            "loopback"
            { id := "d2", timestamp := 1,
              tools := [{ name := "read_file", description := "Read a file",
                          parameters := .obj [] }] })
        "loopback" "write_file" = false :=
  C5_discovery_replaces_wholesale
    { pendingRequests := [], activeTimers := [], clientTools := [], timeoutMs := 30000 }
    "loopback"
    { name := "read_file", description := "Read a file", parameters := .obj [] }
    { name := "write_file", description := "Write a file", parameters := .obj [] }
    { id := "d1", timestamp := 0,
      tools := [{ name := "read_file", description := "Read a file", parameters := .obj [] },
                { name := "write_file", description := "Write a file", parameters := .obj [] }] }
    { id := "d2", timestamp := 1,
      tools := [{ name := "read_file", description := "Read a file", parameters := .obj [] }] }
    rfl rfl (by decide)

/-- C4, counterexample: `disconnect` on a client with one outstanding
pending request performs no rejection at all — the settlement list is
empty and the pending entry survives — refuting the claim that every
pending request is rejected with a `ConnectionClosed` error. -/
theorem C4_counterexample_pending_survives :
    (LoopbackProtocolClient.disconnect
        { messageHandlers := [0], pendingRequests := [("r1", ())] }).2 = [] ∧
    (LoopbackProtocolClient.disconnect
        { messageHandlers := [0], pendingRequests := [("r1", ())] }).1.pendingRequests =
      [("r1", ())] :=
  ⟨rfl, rfl⟩

/-- C4 (amended): `disconnect` clears the client's message handlers and
nothing else — it rejects no pending request (outstanding entries survive
untouched) — and it is idempotent: a second call throws no error and
produces exactly the state of the first call. -/
theorem C4_disconnect_idempotent (st : LoopbackProtocolClient.State) :
    (LoopbackProtocolClient.disconnect st).2 = [] ∧
    (LoopbackProtocolClient.disconnect st).1.pendingRequests = st.pendingRequests ∧
    (LoopbackProtocolClient.disconnect st).1.messageHandlers = [] ∧
    LoopbackProtocolClient.disconnect (LoopbackProtocolClient.disconnect st).1 =
      LoopbackProtocolClient.disconnect st :=
  ⟨rfl, rfl, rfl, rfl⟩

/-- C6, counterexample: with neither an executor nor a legacy handler
configured, the error string of the response actually sent is
`No tool executor configured` (capital N), not the claimed
`no tool executor configured`. -/
theorem C6_counterexample_error_string :
    (ProtocolClient.handleToolRequest
        { pendingRequests := [], toolExecutor := none, toolRequestHandler := none }
        "f1" 0
        { id := "req1", timestamp := 0, tool := "echo", parameters := .obj [] }).error =
      some "No tool executor configured" ∧
    (some "No tool executor configured" : Option String) ≠
      some "no tool executor configured" :=
  ⟨rfl, by decide⟩

/-- C6 (amended): for every inbound `ToolExecutionRequest`: a registered
executor is invoked, taking priority over the legacy handler; the legacy
handler is invoked only when no executor is set; exactly one
`ToolExecutionResponse` is sent back — the capability's own response, or
an error response carrying the thrown message when the capability
rejects; and with neither configured an immediate error response with the
string `No tool executor configured` is sent rather than the request
being dropped. -/
theorem C6_handleToolRequest_dispatch (st : ProtocolClient.State)
    (freshId : String) (now : Int) (request : Protocol.ToolExecutionRequest) :
    (∀ executor resp, st.toolExecutor = some executor →
        executor request = Except.ok resp →
        ProtocolClient.handleMessage st freshId now (.toolExecutionRequest request) =
          (st, .toolResponse resp)) ∧
    (∀ executor e, st.toolExecutor = some executor →
        executor request = Except.error e →
        ProtocolClient.handleMessage st freshId now (.toolExecutionRequest request) =
          (st, .toolResponse
            { id := freshId, timestamp := now, requestId := request.id,
              result := .undef, error := some e })) ∧
    (∀ handler resp, st.toolExecutor = none →
        st.toolRequestHandler = some handler →
        handler request = Except.ok resp →
        ProtocolClient.handleMessage st freshId now (.toolExecutionRequest request) =
          (st, .toolResponse resp)) ∧
    (st.toolExecutor = none → st.toolRequestHandler = none →
        ProtocolClient.handleMessage st freshId now (.toolExecutionRequest request) =
          (st, .toolResponse
            { id := freshId, timestamp := now, requestId := request.id,
              result := .undef, error := some "No tool executor configured" })) := by
  refine ⟨?_, ?_, ?_, ?_⟩
  · intro executor resp hex hok
    simp [ProtocolClient.handleMessage, ProtocolClient.handleToolRequest, hex, hok]
  · intro executor e hex herr
    simp [ProtocolClient.handleMessage, ProtocolClient.handleToolRequest, hex, herr]
  · intro handler resp hex hh hok
    simp [ProtocolClient.handleMessage, ProtocolClient.handleToolRequest, hex, hh, hok]
  · intro hex hh
    simp [ProtocolClient.handleMessage, ProtocolClient.handleToolRequest, hex, hh]

/-- C6, witness: the dispatch theorem applied to a concrete executor that
answers the request, and to a concrete client with nothing configured. -/
theorem C6_handleToolRequest_dispatch_witness :
    ProtocolClient.handleMessage
        { pendingRequests := [],
          toolExecutor := some (fun _ => Except.ok
            { id := "r1", timestamp := 1, requestId := "req1",
              result := .str "done", error := none }),
          toolRequestHandler := none }
        "f1" 0
        (.toolExecutionRequest
          { id := "req1", timestamp := 0, tool := "echo", parameters := .obj [] }) =
      ({ pendingRequests := [],
         toolExecutor := some (fun _ => Except.ok
           { id := "r1", timestamp := 1, requestId := "req1",
             result := .str "done", error := none }),
         toolRequestHandler := none },
       .toolResponse
         { id := "r1", timestamp := 1, requestId := "req1",
           result := .str "done", error := none }) ∧
    ProtocolClient.handleMessage
        { pendingRequests := [], toolExecutor := none, toolRequestHandler := none }
        "f1" 0
        (.toolExecutionRequest
          { id := "req1", timestamp := 0, tool := "echo", parameters := .obj [] }) =
      ({ pendingRequests := [], toolExecutor := none, toolRequestHandler := none },
       .toolResponse
         { id := "f1", timestamp := 0, requestId := "req1",
           result := .undef, error := some "No tool executor configured" }) :=
  ⟨(C6_handleToolRequest_dispatch
      { pendingRequests := [],
        toolExecutor := some (fun _ => Except.ok
          { id := "r1", timestamp := 1, requestId := "req1",
            result := .str "done", error := none }),
        toolRequestHandler := none }
      "f1" 0
      { id := "req1", timestamp := 0, tool := "echo", parameters := .obj [] }).1
      (fun _ => Except.ok
        { id := "r1", timestamp := 1, requestId := "req1",
          result := .str "done", error := none })
      { id := "r1", timestamp := 1, requestId := "req1",
        result := .str "done", error := none }
      rfl rfl,
   (C6_handleToolRequest_dispatch
      { pendingRequests := [], toolExecutor := none, toolRequestHandler := none }
      "f1" 0
      { id := "req1", timestamp := 0, tool := "echo", parameters := .obj [] }).2.2.2
      rfl rfl⟩

/-- C7, counterexample: `sendMessage` addressed to a clientId while no
client is connected does not fail — it returns successfully having
performed no delivery — so no `UnknownClient` error ever reaches the
caller. -/
theorem C7_counterexample_no_unknown_client_error :
    CoreServer.sendMessage { messageHandlers := [] } "ghost"
        (.toolDiscovery { id := "d", timestamp := 0, tools := [] }) =
      Except.ok [] :=
  rfl

/-- C7 (amended): `CoreServer.sendMessage` never fails: it performs no
connected-client check, and it hands the message, tagged with the given
clientId, to every registered message handler (a loopback broadcast),
whatever the clientId is. -/
theorem C7_sendMessage_never_fails (st : CoreServer.State) (clientId : String)
    (message : Protocol.ProtocolMessage) :
    ∃ ds, CoreServer.sendMessage st clientId message = Except.ok ds ∧
      ds.length = st.messageHandlers.length ∧
      ∀ d ∈ ds, d.message = message ∧ d.clientId = clientId := by
  refine ⟨st.messageHandlers.map
      (fun h => { handler := h, message := message, clientId := clientId }),
    rfl, by simp, ?_⟩
  intro d hd
  rw [List.mem_map] at hd
  obtain ⟨h, _, rfl⟩ := hd
  exact ⟨rfl, rfl⟩

/-- C8, counterexample: `createToolExecutionResponse` copies both optional
arguments through with no exclusivity check, so calling it with both a
result and an error yields a response with both fields populated. -/
theorem C8_counterexample_factory_both_populated :
    (Protocol.createToolExecutionResponse "i1" 0 "req"
        (.str "value") (some "boom")).result = .str "value" ∧
    (Protocol.createToolExecutionResponse "i1" 0 "req"
        (.str "value") (some "boom")).error = some "boom" :=
  ⟨rfl, rfl⟩

/-- C8 (amended): the factory reflects its arguments exactly, so it keeps
one side unpopulated whenever the caller does; and the responses the
repository's own handlers construct populate at most one side:
`handleGenerateContent` emits no `error` on success and `response: null`
alongside the error on failure, and the client's fallback path emits only
`error` with an undefined `result`. -/
theorem C8_responses_at_most_one_side :
    (∀ (freshId : String) (now : Int) (requestId : String)
        (result : Js.Value) (error : Option String),
        result = .undef ∨ error = none →
        (Protocol.createToolExecutionResponse freshId now requestId
            result error).result = .undef ∨
        (Protocol.createToolExecutionResponse freshId now requestId
            result error).error = none) ∧
    (∀ (request : Protocol.GenerateContentRequest) (now : Int)
        (outcome : Except String Js.Value),
        (CoreServer.handleGenerateContent request now outcome).error = none ∨
        (CoreServer.handleGenerateContent request now outcome).response = .nul) ∧
    (∀ (st : ProtocolClient.State) (freshId : String) (now : Int)
        (request : Protocol.ToolExecutionRequest),
        st.toolExecutor = none → st.toolRequestHandler = none →
        (ProtocolClient.handleToolRequest st freshId now request).result = .undef ∧
        (ProtocolClient.handleToolRequest st freshId now request).error =
          some "No tool executor configured") := by
  refine ⟨?_, ?_, ?_⟩
  · intro freshId now requestId result error h
    rcases h with h | h <;> simp [Protocol.createToolExecutionResponse, h]
  · intro request now outcome
    cases outcome <;> simp [CoreServer.handleGenerateContent]
  · intro st freshId now request hex hh
    simp [ProtocolClient.handleToolRequest, hex, hh]

/-- C8, witness: the exclusivity theorem applied to a result-only factory
call, a failed generation outcome, and a client with nothing
configured. -/
theorem C8_responses_at_most_one_side_witness :
    ((Protocol.createToolExecutionResponse "i2" 0 "req"
        (.str "v") none).result = .undef ∨
     (Protocol.createToolExecutionResponse "i2" 0 "req"
        (.str "v") none).error = none) ∧
    ((CoreServer.handleGenerateContent
        { id := "g1", timestamp := 0, contents := .arr [], config := none }
        7 (Except.error "engine down")).error = none ∨
     (CoreServer.handleGenerateContent
        { id := "g1", timestamp := 0, contents := .arr [], config := none }
        7 (Except.error "engine down")).response = .nul) ∧
    (ProtocolClient.handleToolRequest
        { pendingRequests := [], toolExecutor := none, toolRequestHandler := none }
        "f2" 0
        { id := "t1", timestamp := 0, tool := "echo", parameters := .obj [] }).result =
      .undef :=
  ⟨C8_responses_at_most_one_side.1 "i2" 0 "req" (.str "v") none (Or.inr rfl),
   C8_responses_at_most_one_side.2.1
     { id := "g1", timestamp := 0, contents := .arr [], config := none }
     7 (Except.error "engine down"),
   (C8_responses_at_most_one_side.2.2
     { pendingRequests := [], toolExecutor := none, toolRequestHandler := none }
     "f2" 0
     { id := "t1", timestamp := 0, tool := "echo", parameters := .obj [] }
     rfl rfl).1⟩

/-- C9: when a matching `GenerateContentResponse` has no envelope `error`
but its opaque payload is an object with a truthy `error` property, the
pending `generateContent` call rejects with that property's value wrapped
in an `Error` instead of resolving with the payload; only a payload
without a truthy `error` property resolves. -/
theorem C9_payload_error_rejects (st : ProtocolClient.State)
    (freshId : String) (now : Int)
    (response : Protocol.GenerateContentResponse)
    (hpending : AssocMap.getKey? st.pendingRequests response.requestId = some ())
    (herr : response.error = none) :
    ((response.response.getField "error").truthy = true →
        ProtocolClient.handleMessage st freshId now
            (.generateContentResponse response) =
          ({ st with pendingRequests :=
                AssocMap.delKey st.pendingRequests response.requestId },
           .settled response.requestId
             (.rejectedErr (response.response.getField "error")))) ∧
    ((response.response.getField "error").truthy = false →
        ProtocolClient.handleMessage st freshId now
            (.generateContentResponse response) =
          ({ st with pendingRequests :=
                AssocMap.delKey st.pendingRequests response.requestId },
           .settled response.requestId (.resolved response.response))) := by
  constructor
  · intro htruthy
    simp [ProtocolClient.handleMessage, hpending, herr, Protocol.errorTruthy,
          ProtocolClient.generateContentResolver, htruthy]
  · intro hfalsy
    simp [ProtocolClient.handleMessage, hpending, herr, Protocol.errorTruthy,
          ProtocolClient.generateContentResolver, hfalsy]

/-- C9, witness: a pending call id `g1`, an envelope with no error, and a
payload `{error: "quota exceeded"}`: the call rejects with the payload's
error value. -/
theorem C9_payload_error_rejects_witness :
    ProtocolClient.handleMessage
        { pendingRequests := [("g1", ())], toolExecutor := none,
          toolRequestHandler := none }
        "f1" 0
        (.generateContentResponse
          { id := "r1", timestamp := 0, requestId := "g1",
            response := .obj [("error", .str "quota exceeded")], error := none }) =
      ({ pendingRequests := AssocMap.delKey [("g1", ())] "g1", toolExecutor := none,
         toolRequestHandler := none },
       .settled "g1" (.rejectedErr (.str "quota exceeded"))) :=
  (C9_payload_error_rejects
      { pendingRequests := [("g1", ())], toolExecutor := none,
        toolRequestHandler := none }
      "f1" 0
      { id := "r1", timestamp := 0, requestId := "g1",
        response := .obj [("error", .str "quota exceeded")], error := none }
      (by rfl) rfl).1 (by rfl)

/-- C10: pending entries settle at most once, on both sides.  Proxy side:
after any `handleToolResponse`, the entry for that `requestId` is gone; a
`handleToolResponse` for an unregistered id is a complete no-op; a timer
fire that settles removes both the entry and the timer; a cleared timer
cannot fire; and neither step touches the entry of any other id.  Client
side: the same holds for `handleMessage` on a `generate_content_response`
and for the `generateContent` timeout callback, whose membership re-check
makes the never-cleared timer harmless after resolution. -/
theorem C10_settled_at_most_once :
    (∀ (st : ToolProxy.State) (response : Protocol.ToolExecutionResponse),
        AssocMap.getKey?
          (ToolProxy.handleToolResponse st response).1.pendingRequests
          response.requestId = none) ∧
    (∀ (st : ToolProxy.State) (response : Protocol.ToolExecutionResponse),
        AssocMap.getKey? st.pendingRequests response.requestId = none →
        ToolProxy.handleToolResponse st response = (st, none)) ∧
    (∀ (st : ToolProxy.State) (requestId : String),
        ((ToolProxy.fireTimeout st requestId).2).isSome = true →
        AssocMap.getKey?
            (ToolProxy.fireTimeout st requestId).1.pendingRequests requestId = none ∧
        AssocMap.getKey?
            (ToolProxy.fireTimeout st requestId).1.activeTimers requestId = none) ∧
    (∀ (st : ToolProxy.State) (requestId : String),
        AssocMap.getKey? st.activeTimers requestId = none →
        ToolProxy.fireTimeout st requestId = (st, none)) ∧
    (∀ (st : ToolProxy.State) (response : Protocol.ToolExecutionResponse)
        (other : String), other ≠ response.requestId →
        AssocMap.getKey?
            (ToolProxy.handleToolResponse st response).1.pendingRequests other =
          AssocMap.getKey? st.pendingRequests other) ∧
    (∀ (st : ToolProxy.State) (requestId other : String), other ≠ requestId →
        AssocMap.getKey?
            (ToolProxy.fireTimeout st requestId).1.pendingRequests other =
          AssocMap.getKey? st.pendingRequests other) ∧
    (∀ (st : ProtocolClient.State) (freshId : String) (now : Int)
        (response : Protocol.GenerateContentResponse),
        AssocMap.getKey?
            (ProtocolClient.handleMessage st freshId now
              (.generateContentResponse response)).1.pendingRequests
            response.requestId = none) ∧
    (∀ (st : ProtocolClient.State) (freshId : String) (now : Int)
        (response : Protocol.GenerateContentResponse),
        AssocMap.getKey? st.pendingRequests response.requestId = none →
        ProtocolClient.handleMessage st freshId now
            (.generateContentResponse response) = (st, .noEffect)) ∧
    (∀ (st : ProtocolClient.State) (requestId : String),
        AssocMap.getKey?
            (ProtocolClient.fireGenTimeout st requestId).1.pendingRequests
            requestId = none) ∧
    (∀ (st : ProtocolClient.State) (requestId : String),
        AssocMap.getKey? st.pendingRequests requestId = none →
        ProtocolClient.fireGenTimeout st requestId = (st, none)) ∧
    (∀ (st : ProtocolClient.State) (freshId : String) (now : Int)
        (response : Protocol.GenerateContentResponse) (other : String),
        other ≠ response.requestId →
        AssocMap.getKey?
            (ProtocolClient.handleMessage st freshId now
              (.generateContentResponse response)).1.pendingRequests other =
          AssocMap.getKey? st.pendingRequests other) ∧
    (∀ (st : ProtocolClient.State) (requestId other : String),
        other ≠ requestId →
        AssocMap.getKey?
            (ProtocolClient.fireGenTimeout st requestId).1.pendingRequests other =
          AssocMap.getKey? st.pendingRequests other) := by
  refine ⟨?_, ?_, ?_, ?_, ?_, ?_, ?_, ?_, ?_, ?_, ?_, ?_⟩
  · intro st response
    cases hm : AssocMap.getKey? st.pendingRequests response.requestId with
    | none => simp [ToolProxy.handleToolResponse, hm]
    | some entry =>
        by_cases hc : Protocol.errorTruthy response.error <;>
          simp [ToolProxy.handleToolResponse, hm, hc, AssocMap.getKey?_delKey_self]
  · intro st response hm
    simp [ToolProxy.handleToolResponse, hm]
  · intro st requestId hsome
    cases hm : AssocMap.getKey? st.activeTimers requestId with
    | none => simp [ToolProxy.fireTimeout, hm] at hsome
    | some toolName =>
        simp [ToolProxy.fireTimeout, hm, AssocMap.getKey?_delKey_self]
  · intro st requestId hm
    simp [ToolProxy.fireTimeout, hm]
  · intro st response other hother
    cases hm : AssocMap.getKey? st.pendingRequests response.requestId with
    | none => simp [ToolProxy.handleToolResponse, hm]
    | some entry =>
        by_cases hc : Protocol.errorTruthy response.error <;>
          simp [ToolProxy.handleToolResponse, hm, hc,
                AssocMap.getKey?_delKey_ne _ _ _ hother]
  · intro st requestId other hother
    cases hm : AssocMap.getKey? st.activeTimers requestId with
    | none => simp [ToolProxy.fireTimeout, hm]
    | some toolName =>
        simp [ToolProxy.fireTimeout, hm, AssocMap.getKey?_delKey_ne _ _ _ hother]
  · intro st freshId now response
    cases hm : AssocMap.getKey? st.pendingRequests response.requestId with
    | none => simp [ProtocolClient.handleMessage, hm]
    | some u => simp [ProtocolClient.handleMessage, hm, AssocMap.getKey?_delKey_self]
  · intro st freshId now response hm
    simp [ProtocolClient.handleMessage, hm]
  · intro st requestId
    by_cases hm : (AssocMap.getKey? st.pendingRequests requestId).isSome
    · simp [ProtocolClient.fireGenTimeout, hm, AssocMap.getKey?_delKey_self]
    · have hnone : AssocMap.getKey? st.pendingRequests requestId = none :=
        Option.not_isSome_iff_eq_none.mp hm
      simp [ProtocolClient.fireGenTimeout, hnone]
  · intro st requestId hm
    simp [ProtocolClient.fireGenTimeout, hm]
  · intro st freshId now response other hother
    cases hm : AssocMap.getKey? st.pendingRequests response.requestId with
    | none => simp [ProtocolClient.handleMessage, hm]
    | some u =>
        simp [ProtocolClient.handleMessage, hm,
              AssocMap.getKey?_delKey_ne _ _ _ hother]
  · intro st requestId other hother
    by_cases hm : (AssocMap.getKey? st.pendingRequests requestId).isSome <;>
      simp [ProtocolClient.fireGenTimeout, hm,
            AssocMap.getKey?_delKey_ne _ _ _ hother]

/-- C10, witness: the at-most-once theorem applied to a concrete settled
state: a late response, a late proxy timer, and a late client timer for an
id that is no longer pending are all no-ops. -/
theorem C10_settled_at_most_once_witness :
    ToolProxy.handleToolResponse
        { pendingRequests := [], activeTimers := [],
          clientTools := [], timeoutMs := 30000 }
        { id := "late", timestamp := 9, requestId := "done",
          result := .str "x", error := none } =
      ({ pendingRequests := [], activeTimers := [],
         clientTools := [], timeoutMs := 30000 }, none) ∧
    ToolProxy.fireTimeout
        { pendingRequests := [], activeTimers := [],
          clientTools := [], timeoutMs := 30000 } "done" =
      ({ pendingRequests := [], activeTimers := [],
         clientTools := [], timeoutMs := 30000 }, none) ∧
    ProtocolClient.fireGenTimeout
        { pendingRequests := [], toolExecutor := none,
          toolRequestHandler := none } "done" =
      ({ pendingRequests := [], toolExecutor := none,
         toolRequestHandler := none }, none) :=
  ⟨C10_settled_at_most_once.2.1
      { pendingRequests := [], activeTimers := [],
        clientTools := [], timeoutMs := 30000 }
      { id := "late", timestamp := 9, requestId := "done",
        result := .str "x", error := none } (by rfl),
   C10_settled_at_most_once.2.2.2.1
      { pendingRequests := [], activeTimers := [],
        clientTools := [], timeoutMs := 30000 } "done" (by rfl),
   C10_settled_at_most_once.2.2.2.2.2.2.2.2.2.1
      { pendingRequests := [], toolExecutor := none,
        toolRequestHandler := none } "done" (by rfl)⟩
